import Mathlib

/-!
Shallow embedding of `opentelemetry-instrumentation-openai/patch.py`.

The source instruments a chat-completion client: an interception layer
(`chat_completions_create` / `traced_method`) opens a span, attaches request
attributes, emits request-message events, and either records a non-streaming
response synchronously or wraps a streaming response in a `StreamWrapper`.
The `StreamWrapper` passes chunks through while accumulating state
(`process_chunk`, `ChoiceBuffer.append`) and finalizes the span and terminal
`gen_ai.choice` events in `cleanup`.

Side effects on the span and on the event logger are modelled as an explicit
list of `Effect` values produced by each operation, in emission order.
Python values that flow into `span.set_attribute` are modelled by `PyVal`
(including the `None` value and the `openai.NOT_GIVEN` sentinel).
Exceptions are modelled by `PyError` (the type's qualified name and the
message `str(error)`); raising is modelled by explicit control flow and by
an `Option PyError` result where a caller observes the raise.
-/

/-- Attribute name `gen_ai.system` (semconv constant used at patch.py:38). -/
def GEN_AI_SYSTEM : String := "gen_ai.system"

/-- Attribute name `gen_ai.operation.name` (patch.py:39). -/
def GEN_AI_OPERATION_NAME : String := "gen_ai.operation.name"

/-- Attribute name `gen_ai.request.model` (patch.py:40). -/
def GEN_AI_REQUEST_MODEL : String := "gen_ai.request.model"

/-- Attribute name `gen_ai.request.temperature` (patch.py:41). -/
def GEN_AI_REQUEST_TEMPERATURE : String := "gen_ai.request.temperature"

/-- Attribute name `gen_ai.request.top_p` (patch.py:42). -/
def GEN_AI_REQUEST_TOP_P : String := "gen_ai.request.top_p"

/-- Attribute name `gen_ai.request.max_tokens` (patch.py:43). -/
def GEN_AI_REQUEST_MAX_TOKENS : String := "gen_ai.request.max_tokens"

/-- Attribute name `gen_ai.request.presence_penalty` (patch.py:44). -/
def GEN_AI_REQUEST_PRESENCE_PENALTY : String := "gen_ai.request.presence_penalty"

/-- Attribute name `gen_ai.request.frequency_penalty` (patch.py:45). -/
def GEN_AI_REQUEST_FREQUENCY_PENALTY : String := "gen_ai.request.frequency_penalty"

/-- Attribute name `gen_ai.response.model` (patch.py:161). -/
def GEN_AI_RESPONSE_MODEL : String := "gen_ai.response.model"

/-- Attribute name `gen_ai.response.id` (patch.py:162). -/
def GEN_AI_RESPONSE_ID : String := "gen_ai.response.id"

/-- Attribute name `gen_ai.usage.input_tokens` (patch.py:163). -/
def GEN_AI_USAGE_INPUT_TOKENS : String := "gen_ai.usage.input_tokens"

/-- Attribute name `gen_ai.usage.output_tokens` (patch.py:164). -/
def GEN_AI_USAGE_OUTPUT_TOKENS : String := "gen_ai.usage.output_tokens"

/-- Attribute name `gen_ai.response.finish_reasons` (patch.py:80,237). -/
def GEN_AI_RESPONSE_FINISH_REASONS : String := "gen_ai.response.finish_reasons"

/-- Attribute name `error.type` (patch.py:92). -/
def ERROR_TYPE : String := "error.type"

/-- Model of the Python values that flow into `span.set_attribute` in this
module: `None`, the `openai.NOT_GIVEN` sentinel, booleans, strings, ints,
and lists of strings (the `finish_reasons` attribute). -/
inductive PyVal where
  | pyNone
  | notGiven
  | bool (b : Bool)
  | str (s : String)
  | int (n : Int)
  | strList (xs : List String)
deriving DecidableEq

/-- Python truthiness (`bool(v)`) for the values of `PyVal`.
`openai.NOT_GIVEN` defines `__bool__` as `False`. -/
def pyTruthy : PyVal → Bool
  | PyVal.pyNone => false
  | PyVal.notGiven => false
  | PyVal.bool b => b
  | PyVal.str s => !(s == "")
  | PyVal.int n => !(n == 0)
  | PyVal.strList xs => !xs.isEmpty

/-- Lift an optional Python string to a `PyVal` (absent/`None` becomes `pyNone`). -/
def optStrVal : Option String → PyVal
  | none => PyVal.pyNone
  | some s => PyVal.str s

/-- Lift an optional Python int to a `PyVal` (absent/`None` becomes `pyNone`). -/
def optIntVal : Option Int → PyVal
  | none => PyVal.pyNone
  | some n => PyVal.int n

/-- Python `x or y` for an optional string `x`: `None` and `""` are falsy. -/
def pyOrStr (x : Option String) (y : String) : String :=
  match x with
  | none => y
  | some s => if s == "" then y else s

/-- A Python exception as this module observes it: `type(error).__qualname__`
and `str(error)` (patch.py:92-93). -/
structure PyError where
  typeName : String
  message : String
deriving DecidableEq

/-- A tool-call descriptor as serialized at patch.py:107-117 and 140-150. -/
structure ToolCall where
  id : String
  type : String
  functionName : String
  functionArguments : String
deriving DecidableEq

/-- An event emitted through `event_logger.emit`, identified by its wire name
and the fields of its `JsonBody`.  (`gen_ai.choice` bodies carry an index, a
finish reason, and a message with optional content / tool calls; the streaming
`cleanup` body always has `message = {content: accumulated_text}`.) -/
inductive EmittedEvent where
  | userMessage (content : Option String)
  | systemMessage (content : Option String)
  | assistantMessage (content : Option String) (tool_calls : Option (List ToolCall))
  | toolMessage (content : Option String) (id : Option String)
  | choiceEvent (index : Nat) (finish_reason : Option String)
      (msgContent : Option String) (msgToolCalls : Option (List ToolCall))
deriving DecidableEq

/-- One observable side effect on the span or the event logger, in order:
`span.set_attribute`, `span.set_status(ERROR, msg)`, `span.end()`, or
`event_logger.emit(e)` (where `e = none` models `_message_to_event`
returning `None` for an unrecognized role). -/
inductive Effect where
  | attr (name : String) (value : PyVal)
  | statusError (message : String)
  | spanEnd
  | emit (e : Option EmittedEvent)
deriving DecidableEq

/-- The condition of `_set_span_attribute` (patch.py:166-168):
`value is not None and (value != "" or value != NOT_GIVEN)`.
The disjunction is the source's literal condition (it is always true, since no
value equals both `""` and `NOT_GIVEN`). -/
def shouldSetAttr (value : PyVal) : Bool :=
  (value != PyVal.pyNone) && ((value != PyVal.str "") || (value != PyVal.notGiven))

/-- `_set_span_attribute(span, name, value)` (patch.py:166-168) as the list of
span effects it performs. -/
def set_span_attribute (name : String) (value : PyVal) : List Effect :=
  if shouldSetAttr value then [Effect.attr name value] else []

/-- `_record_error(error, span)` (patch.py:91-95) sets the `error.type`
attribute, sets an error status with the message, and ends the span; the
function then re-raises `error`, which its callers model by control flow. -/
def record_error_effects (e : PyError) : List Effect :=
  [Effect.attr ERROR_TYPE (PyVal.str e.typeName),
   Effect.statusError e.message,
   Effect.spanEnd]

/-- `_set_response_attributes(span, ...)` (patch.py:157-164): a no-op when the
span is not recording, otherwise four `_set_span_attribute` calls. -/
def set_response_attributes (recording : Bool)
    (response_model response_id usage_input usage_output : PyVal) : List Effect :=
  if recording then
    set_span_attribute GEN_AI_RESPONSE_MODEL response_model
    ++ set_span_attribute GEN_AI_RESPONSE_ID response_id
    ++ set_span_attribute GEN_AI_USAGE_INPUT_TOKENS usage_input
    ++ set_span_attribute GEN_AI_USAGE_OUTPUT_TOKENS usage_output
  else []

/-- Usage payload of a response or chunk (patch.py:66-67, 273-275). -/
structure Usage where
  prompt_tokens : Int
  completion_tokens : Int
deriving DecidableEq

/-- The text delta of a streamed choice (`choice.delta`, patch.py:185-186). -/
structure ChoiceDelta where
  content : Option String
deriving DecidableEq

/-- One per-choice delta inside a streamed chunk (patch.py:181-186, 277-280). -/
structure ChunkChoice where
  index : Nat
  finish_reason : Option String
  delta : Option ChoiceDelta
deriving DecidableEq

/-- One streamed chunk (fields read by `process_chunk`, patch.py:266-280).
`choices`, when present, is a list of possibly-`None` entries because the
source guards each element with `if choice:`. -/
structure Chunk where
  id : Option String
  model : Option String
  usage : Option Usage
  choices : Option (List (Option ChunkChoice))
deriving DecidableEq

/-- `ChoiceBuffer` (patch.py:174-179); the `role` field is assigned in
`__init__` and never used, so it is omitted. -/
structure ChoiceBuffer where
  index : Nat
  finish_reason : Option String
  content_str : String
deriving DecidableEq

/-- `ChoiceBuffer.__init__(index)` (patch.py:175-179). -/
def ChoiceBuffer.init (index : Nat) : ChoiceBuffer :=
  { index := index, finish_reason := none, content_str := "" }

/-- `ChoiceBuffer.append(choice)` (patch.py:181-186): overwrite the finish
reason when the delta carries a non-null one; append the delta's content when
the delta is truthy and its content is not `None`. -/
def ChoiceBuffer.append (b : ChoiceBuffer) (c : ChunkChoice) : ChoiceBuffer :=
  let b1 := if c.finish_reason.isSome then { b with finish_reason := c.finish_reason } else b
  match c.delta with
  | some d =>
    match d.content with
    | some s => { b1 with content_str := b1.content_str ++ s }
    | none => b1
  | none => b1

/-- `StreamWrapper` state (patch.py:192-216).  The wrapped `stream` and the
span/event-logger handles are kept outside the state: the upstream sequence is
a parameter of `runStream`, and span/event-logger interactions are returned as
`Effect` lists. -/
structure StreamWrapper where
  span_started : Bool
  response_id : Option String
  response_model : Option String
  prompt_tokens : Int
  completion_tokens : Int
  choices : List ChoiceBuffer
deriving DecidableEq

/-- `StreamWrapper.__init__` (patch.py:195-216): one `ChoiceBuffer` per index
`0..num_choices-1`, zero token counters, no id/model, and `setup()` has set
`_span_started = True`. -/
def StreamWrapper.init (num_choices : Nat) : StreamWrapper :=
  { span_started := true
  , response_id := none
  , response_model := none
  , prompt_tokens := 0
  , completion_tokens := 0
  , choices := (List.range num_choices).map ChoiceBuffer.init }

/-- `self.choices[choice.index].append(choice)` (patch.py:280) for one
non-`None` choice.  The source raises `IndexError` when `choice.index` is out
of range; the claims only concern well-formed chunks (indices in range), where
this total version agrees with the source. -/
def applyChoice (bufs : List ChoiceBuffer) (c : ChunkChoice) : List ChoiceBuffer :=
  match bufs.get? c.index with
  | some b => bufs.set c.index (b.append c)
  | none => bufs

/-- The `for choice in chunk.choices: if choice: ...` loop body (patch.py:278-280). -/
def applyOptChoice (bufs : List ChoiceBuffer) (oc : Option ChunkChoice) : List ChoiceBuffer :=
  match oc with
  | some c => applyChoice bufs c
  | none => bufs

/-- `StreamWrapper.process_chunk(chunk)` (patch.py:266-280): first-write-wins
for `response_id` and `response_model`, overwrite of both token counters when
the chunk carries truthy usage, then per-choice accumulation. -/
def process_chunk (w : StreamWrapper) (chunk : Chunk) : StreamWrapper :=
  let w1 := if w.response_id.isNone then { w with response_id := chunk.id } else w
  let w2 := if w1.response_model.isNone then { w1 with response_model := chunk.model } else w1
  let w3 :=
    match chunk.usage with
    | some u => { w2 with completion_tokens := u.completion_tokens, prompt_tokens := u.prompt_tokens }
    | none => w2
  match chunk.choices with
  | some cs => { w3 with choices := cs.foldl applyOptChoice w3.choices }
  | none => w3

/-- `StreamWrapper.cleanup(exc_val)` (patch.py:222-242).  Returns the updated
wrapper state and the effects performed, in order.  When `exc_val` is not
`None`, `_record_error` re-raises it, so the trailing `self.span.end()` and
`self._span_started = False` statements are never reached: the state is
returned unchanged and the raise is observed by the caller. -/
def StreamWrapper.cleanup (recording : Bool) (w : StreamWrapper) (exc_val : Option PyError) :
    StreamWrapper × List Effect :=
  if w.span_started then
    let respAttrs := set_response_attributes recording
      (optStrVal w.response_model) (optStrVal w.response_id)
      (PyVal.int w.prompt_tokens) (PyVal.int w.completion_tokens)
    let events := w.choices.map (fun b =>
      Effect.emit (some (EmittedEvent.choiceEvent b.index b.finish_reason (some b.content_str) none)))
    let frAttr := set_span_attribute GEN_AI_RESPONSE_FINISH_REASONS
      (PyVal.strList (w.choices.map (fun b => pyOrStr b.finish_reason "error")))
    match exc_val with
    | some e => (w, respAttrs ++ events ++ frAttr ++ record_error_effects e)
    | none => ({ w with span_started := false }, respAttrs ++ events ++ frAttr ++ [Effect.spanEnd])
  else (w, [])

/-- The upstream streamed response: it yields `chunks` in order and then
either signals exhaustion (`err = none`, Python `StopIteration`) or raises the
failure `err` while producing the next chunk. -/
structure Upstream where
  chunks : List Chunk
  err : Option PyError
deriving DecidableEq

/-- Result of a caller iterating a `StreamWrapper` to the end: the chunks it
observed (in order), the final wrapper state, the effects performed, and the
failure re-raised to the caller (`none` means normal exhaustion, i.e. the
caller observed `StopIteration`). -/
structure RunResult where
  yielded : List Chunk
  final : StreamWrapper
  effects : List Effect
  raised : Option PyError
deriving DecidableEq

/-- Driving `StreamWrapper.__next__` (patch.py:254-264) until the upstream is
done: each available chunk is first applied by `process_chunk` and then
returned to the caller; on `StopIteration` the wrapper runs `cleanup()` and
re-raises; on any other failure it runs `cleanup(e)` and the identical failure
reaches the caller. -/
def runStream (recording : Bool) (w : StreamWrapper) : List Chunk → Option PyError → RunResult
  | c :: rest, err =>
    let r := runStream recording (process_chunk w c) rest err
    { r with yielded := c :: r.yielded }
  | [], none =>
    let p := StreamWrapper.cleanup recording w none
    { yielded := [], final := p.1, effects := p.2, raised := none }
  | [], some e =>
    let p := StreamWrapper.cleanup recording w (some e)
    { yielded := [], final := p.1, effects := p.2, raised := some e }

/-- `runStream` over an `Upstream`. -/
def runUpstream (recording : Bool) (w : StreamWrapper) (up : Upstream) : RunResult :=
  runStream recording w up.chunks up.err

/-- A sequence of finalization triggers applied to a wrapper, each one an
entry into `cleanup`: upstream exhaustion and a normal scoped exit enter with
`none`; an upstream failure `e` and a scoped exit with an in-flight exception
enter with `some e` (patch.py:248-249, 259-264).  Returns the final wrapper
state and all effects performed, concatenated in order. -/
def runTriggers (recording : Bool) (w : StreamWrapper) :
    List (Option PyError) → StreamWrapper × List Effect
  | [] => (w, [])
  | t :: ts =>
    let p := StreamWrapper.cleanup recording w t
    let q := runTriggers recording p.1 ts
    (q.1, p.2 ++ q.2)

/-- A request message as read by `_message_to_event` (patch.py:121-155):
fields probed with `_get_prop`, absent fields read as `None`. -/
structure Message where
  role : Option String
  content : Option String
  tool_calls : Option (List ToolCall)
  tool_call_id : Option String
deriving DecidableEq

/-- Python truthiness of the `content` value at patch.py:151 (`if content:`):
the key is only added when content is neither `None` nor empty. -/
def truthyContent (content : Option String) : Option String :=
  match content with
  | some s => if s == "" then none else some s
  | none => none

/-- `_message_to_event(message)` (patch.py:128-155).  Returns `none` for an
unrecognized role (the source falls through and returns `None`).  For an
assistant message, `if not tool_calls` treats `None` and the empty list as
falsy; in the tool-call branch the `content` key is added only when truthy. -/
def message_to_event (m : Message) : Option EmittedEvent :=
  if m.role == some "user" then
    some (EmittedEvent.userMessage m.content)
  else if m.role == some "system" then
    some (EmittedEvent.systemMessage m.content)
  else if m.role == some "assistant" then
    match m.tool_calls with
    | none => some (EmittedEvent.assistantMessage m.content none)
    | some [] => some (EmittedEvent.assistantMessage m.content none)
    | some tcs => some (EmittedEvent.assistantMessage (truthyContent m.content) (some tcs))
  else if m.role == some "tool" then
    some (EmittedEvent.toolMessage m.content m.tool_call_id)
  else
    none

/-- A non-streaming response message (patch.py:97-118): `content` and
`tool_calls` keys are added only when the attribute exists and is not `None`. -/
structure RespMessage where
  content : Option String
  tool_calls : Option (List ToolCall)
deriving DecidableEq

/-- A non-streaming response choice (patch.py:70-79).  `message = none` models
a choice object without a `message` attribute (patch.py:100). -/
structure RespChoice where
  index : Nat
  finish_reason : Option String
  message : Option RespMessage
deriving DecidableEq

/-- A complete (non-streaming) response (patch.py:65-72). -/
structure Response where
  id : Option String
  model : Option String
  usage : Option Usage
  choices : Option (List RespChoice)
deriving DecidableEq

/-- `_choice_to_message(choice)` (patch.py:97-118) as the (content,
tool_calls) fields of the resulting message body. -/
def choice_to_message (c : RespChoice) : Option String × Option (List ToolCall) :=
  match c.message with
  | none => (none, none)
  | some m => (m.content, m.tool_calls)

/-- The keyword arguments of the intercepted call, as `traced_method` reads
them (patch.py:32-60): `kwargs.get(...)` yields `None` for an absent key. -/
structure Kwargs where
  model : Option String
  temperature : PyVal
  top_p : PyVal
  max_tokens : PyVal
  presence_penalty : PyVal
  frequency_penalty : PyVal
  messages : List Message
  n : Option Nat
  stream : PyVal
deriving DecidableEq

/-- `_is_streaming(kwargs)` (patch.py:170-172): `bool(stream) and stream != NOT_GIVEN`. -/
def is_streaming (kw : Kwargs) : Bool :=
  pyTruthy kw.stream && (kw.stream != PyVal.notGiven)

/-- `kwargs.get("n") or 1` (patch.py:60): Python `or` maps `None` and `0` to `1`. -/
def numChoices (kw : Kwargs) : Nat :=
  match kw.n with
  | some k => if k == 0 then 1 else k
  | none => 1

/-- The span attributes and request-message events emitted inside the
`if span.is_recording():` block (patch.py:37-48); the first three attributes
use `span.set_attribute` directly (unconditionally), the five optional
request attributes go through `_set_span_attribute`. -/
def requestEffects (kw : Kwargs) : List Effect :=
  [Effect.attr GEN_AI_SYSTEM (PyVal.str "openai"),
   Effect.attr GEN_AI_OPERATION_NAME (PyVal.str "chat"),
   Effect.attr GEN_AI_REQUEST_MODEL (optStrVal kw.model)]
  ++ set_span_attribute GEN_AI_REQUEST_TEMPERATURE kw.temperature
  ++ set_span_attribute GEN_AI_REQUEST_TOP_P kw.top_p
  ++ set_span_attribute GEN_AI_REQUEST_MAX_TOKENS kw.max_tokens
  ++ set_span_attribute GEN_AI_REQUEST_PRESENCE_PENALTY kw.presence_penalty
  ++ set_span_attribute GEN_AI_REQUEST_FREQUENCY_PENALTY kw.frequency_penalty
  ++ kw.messages.map (fun m => Effect.emit (message_to_event m))

/-- The effects of the non-streaming success branch (patch.py:65-81): response
attributes, one `gen_ai.choice` event per returned choice, the
`finish_reasons` attribute (set with plain `span.set_attribute`), then
`span.end()`. -/
def nonStreamingEffects (recording : Bool) (resp : Response) : List Effect :=
  set_response_attributes recording (optStrVal resp.model) (optStrVal resp.id)
    (optIntVal (resp.usage.map Usage.prompt_tokens))
    (optIntVal (resp.usage.map Usage.completion_tokens))
  ++ (match resp.choices with
      | some cs => cs.map (fun c =>
          Effect.emit (some (EmittedEvent.choiceEvent c.index c.finish_reason
            (choice_to_message c).1 (choice_to_message c).2)))
      | none => [])
  ++ [Effect.attr GEN_AI_RESPONSE_FINISH_REASONS
        (PyVal.strList (match resp.choices with
          | some cs => cs.map (fun c => pyOrStr c.finish_reason "error")
          | none => []))]
  ++ [Effect.spanEnd]

/-- The value the wrapped call returned: either the raw streamed sequence or a
complete response object. -/
inductive CallResult where
  | streaming (up : Upstream)
  | complete (resp : Response)
deriving DecidableEq

/-- What `traced_method` returns to its caller: either the raw result of the
wrapped call or a freshly constructed `StreamWrapper` over it (patch.py:55-82). -/
inductive Returned where
  | raw (r : CallResult)
  | wrapped (w : StreamWrapper) (r : CallResult)
deriving DecidableEq

/-- `traced_method` (patch.py:30-82) on the path where the wrapped call
returns `result` without raising.  The request-side attribute and event work
is guarded by `span.is_recording()`; after the call, a non-recording span
returns the result unwrapped immediately (patch.py:54-55); otherwise the
streaming branch wraps the result in a `StreamWrapper` sized by
`kwargs.get("n") or 1` and the non-streaming branch records the response and
ends the span.  (A `streaming` result reaching the non-streaming branch would
make the source raise `AttributeError` reading `result.model`; no claim
exercises that mismatch and it is returned raw here.) -/
def traced_method (recording : Bool) (kw : Kwargs) (result : CallResult) :
    Returned × List Effect :=
  let pre := if recording then requestEffects kw else []
  if recording = false then
    (Returned.raw result, pre)
  else if is_streaming kw then
    (Returned.wrapped (StreamWrapper.init (numChoices kw)) result, pre)
  else
    match result with
    | CallResult.complete resp => (Returned.raw result, pre ++ nonStreamingEffects recording resp)
    | CallResult.streaming _ => (Returned.raw result, pre)

/-- Number of `span.end()` calls in an effect list. -/
def countSpanEnd (effs : List Effect) : Nat :=
  (effs.filter (fun e => e == Effect.spanEnd)).length

/-- Whether an effect is the emission of a `gen_ai.choice` event. -/
def isChoiceEmit : Effect → Bool
  | Effect.emit (some (EmittedEvent.choiceEvent _ _ _ _)) => true
  | _ => false

/-- Number of `gen_ai.choice` events emitted in an effect list. -/
def countChoiceEvents (effs : List Effect) : Nat :=
  (effs.filter isChoiceEmit).length

/-- The `finish_reason` fields carried by the `gen_ai.choice` event bodies of
an effect list, in emission order. -/
def choiceEventReasons (effs : List Effect) : List (Option String) :=
  effs.filterMap (fun e =>
    match e with
    | Effect.emit (some (EmittedEvent.choiceEvent _ fr _ _)) => some fr
    | _ => none)

/-- The string-list values written to the `gen_ai.response.finish_reasons`
span attribute by an effect list, in order. -/
def finishReasonsAttrValues (effs : List Effect) : List (List String) :=
  effs.filterMap (fun e =>
    match e with
    | Effect.attr nm (PyVal.strList xs) =>
        if nm == GEN_AI_RESPONSE_FINISH_REASONS then some xs else none
    | _ => none)

/-- A chunk is well formed for a wrapper with `n` choice buffers when every
per-choice delta it carries has an index in range (out-of-range indices make
the source raise `IndexError` at patch.py:280). -/
def wellFormedChunk (n : Nat) (c : Chunk) : Bool :=
  match c.choices with
  | some cs => cs.all (fun oc =>
      match oc with
      | some ch => decide (ch.index < n)
      | none => true)
  | none => true

theorem append_content_str (b : ChoiceBuffer) (c : ChunkChoice) :
    (b.append c).content_str =
      match c.delta with
      | some d =>
        match d.content with
        | some s => b.content_str ++ s
        | none => b.content_str
      | none => b.content_str := by
  unfold ChoiceBuffer.append
  dsimp only
  repeat' split
  all_goals simp_all

theorem process_chunk_span_started (w : StreamWrapper) (c : Chunk) :
    (process_chunk w c).span_started = w.span_started := by
  unfold process_chunk
  dsimp only
  repeat' split
  all_goals simp_all

theorem process_chunk_response_id (w : StreamWrapper) (c : Chunk) :
    (process_chunk w c).response_id =
      match w.response_id with
      | some v => some v
      | none => c.id := by
  unfold process_chunk
  dsimp only
  repeat' split
  all_goals simp_all

theorem process_chunk_response_model (w : StreamWrapper) (c : Chunk) :
    (process_chunk w c).response_model =
      match w.response_model with
      | some v => some v
      | none => c.model := by
  unfold process_chunk
  dsimp only
  repeat' split
  all_goals simp_all

theorem process_chunk_prompt_tokens (w : StreamWrapper) (c : Chunk) :
    (process_chunk w c).prompt_tokens =
      match c.usage with
      | some u => u.prompt_tokens
      | none => w.prompt_tokens := by
  unfold process_chunk
  dsimp only
  repeat' split
  all_goals simp_all

theorem process_chunk_completion_tokens (w : StreamWrapper) (c : Chunk) :
    (process_chunk w c).completion_tokens =
      match c.usage with
      | some u => u.completion_tokens
      | none => w.completion_tokens := by
  unfold process_chunk
  dsimp only
  repeat' split
  all_goals simp_all

theorem foldl_span_started (cs : List Chunk) (w : StreamWrapper) :
    (List.foldl process_chunk w cs).span_started = w.span_started := by
  induction cs generalizing w with
  | nil => rfl
  | cons c rest ih => simp only [List.foldl_cons, ih, process_chunk_span_started]

theorem foldl_response_id (cs : List Chunk) (w : StreamWrapper) :
    (List.foldl process_chunk w cs).response_id =
      match w.response_id with
      | some v => some v
      | none => cs.findSome? Chunk.id := by
  induction cs generalizing w with
  | nil => cases hid : w.response_id <;> simp [hid]
  | cons c rest ih =>
    rw [List.foldl_cons, ih, process_chunk_response_id]
    cases hid : w.response_id with
    | some v => simp
    | none => cases hc : c.id <;> simp [List.findSome?_cons, hc]

theorem foldl_response_model (cs : List Chunk) (w : StreamWrapper) :
    (List.foldl process_chunk w cs).response_model =
      match w.response_model with
      | some v => some v
      | none => cs.findSome? Chunk.model := by
  induction cs generalizing w with
  | nil => cases hm : w.response_model <;> simp [hm]
  | cons c rest ih =>
    rw [List.foldl_cons, ih, process_chunk_response_model]
    cases hm : w.response_model with
    | some v => simp
    | none => cases hc : c.model <;> simp [List.findSome?_cons, hc]

theorem foldl_prompt_tokens_of_no_usage (cs : List Chunk) (w : StreamWrapper)
    (h : ∀ c ∈ cs, c.usage = none) :
    (List.foldl process_chunk w cs).prompt_tokens = w.prompt_tokens := by
  induction cs generalizing w with
  | nil => rfl
  | cons c rest ih =>
    have hc : c.usage = none := h c (List.mem_cons_self c rest)
    rw [List.foldl_cons, ih _ (fun x hx => h x (List.mem_cons_of_mem _ hx)),
      process_chunk_prompt_tokens, hc]

theorem foldl_completion_tokens_of_no_usage (cs : List Chunk) (w : StreamWrapper)
    (h : ∀ c ∈ cs, c.usage = none) :
    (List.foldl process_chunk w cs).completion_tokens = w.completion_tokens := by
  induction cs generalizing w with
  | nil => rfl
  | cons c rest ih =>
    have hc : c.usage = none := h c (List.mem_cons_self c rest)
    rw [List.foldl_cons, ih _ (fun x hx => h x (List.mem_cons_of_mem _ hx)),
      process_chunk_completion_tokens, hc]

theorem runStream_yielded (recording : Bool) (cs : List Chunk) (err : Option PyError)
    (w : StreamWrapper) :
    (runStream recording w cs err).yielded = cs := by
  induction cs generalizing w with
  | nil => cases err <;> rfl
  | cons c rest ih => simp only [runStream, ih]

theorem runStream_raised (recording : Bool) (cs : List Chunk) (err : Option PyError)
    (w : StreamWrapper) :
    (runStream recording w cs err).raised = err := by
  induction cs generalizing w with
  | nil => cases err <;> rfl
  | cons c rest ih => simp only [runStream, ih]

theorem runStream_effects (recording : Bool) (cs : List Chunk) (err : Option PyError)
    (w : StreamWrapper) :
    (runStream recording w cs err).effects =
      (StreamWrapper.cleanup recording (List.foldl process_chunk w cs) err).2 := by
  induction cs generalizing w with
  | nil => cases err <;> rfl
  | cons c rest ih => simp only [runStream, ih, List.foldl_cons]

theorem cleanup_err_mem (recording : Bool) (w : StreamWrapper) (e : PyError)
    (hw : w.span_started = true) :
    Effect.attr ERROR_TYPE (PyVal.str e.typeName) ∈ (StreamWrapper.cleanup recording w (some e)).2 ∧
    Effect.statusError e.message ∈ (StreamWrapper.cleanup recording w (some e)).2 ∧
    Effect.spanEnd ∈ (StreamWrapper.cleanup recording w (some e)).2 := by
  unfold StreamWrapper.cleanup
  simp [hw, record_error_effects]

theorem finishReasonsAttrValues_append (l1 l2 : List Effect) :
    finishReasonsAttrValues (l1 ++ l2) =
      finishReasonsAttrValues l1 ++ finishReasonsAttrValues l2 := by
  unfold finishReasonsAttrValues
  exact List.filterMap_append l1 l2 _

theorem choiceEventReasons_append (l1 l2 : List Effect) :
    choiceEventReasons (l1 ++ l2) = choiceEventReasons l1 ++ choiceEventReasons l2 := by
  unfold choiceEventReasons
  exact List.filterMap_append l1 l2 _

theorem choiceEventReasons_set_span_attribute (nm : String) (v : PyVal) :
    choiceEventReasons (set_span_attribute nm v) = [] := by
  unfold set_span_attribute
  split <;> simp [choiceEventReasons]

theorem choiceEventReasons_set_response_attributes (recording : Bool) (a b c d : PyVal) :
    choiceEventReasons (set_response_attributes recording a b c d) = [] := by
  unfold set_response_attributes
  split
  · simp [choiceEventReasons_append, choiceEventReasons_set_span_attribute]
  · rfl

theorem choiceEventReasons_record_error (e : PyError) :
    choiceEventReasons (record_error_effects e) = [] := by
  simp [choiceEventReasons, record_error_effects]

theorem choiceEventReasons_choice_events (bufs : List ChoiceBuffer) :
    choiceEventReasons (bufs.map (fun b =>
        Effect.emit (some (EmittedEvent.choiceEvent b.index b.finish_reason (some b.content_str) none))))
      = bufs.map ChoiceBuffer.finish_reason := by
  induction bufs with
  | nil => rfl
  | cons b rest ih => simp [choiceEventReasons, List.filterMap_cons] at ih ⊢; exact ih

theorem finishReasonsAttrValues_optStr (nm : String) (x : Option String) :
    finishReasonsAttrValues (set_span_attribute nm (optStrVal x)) = [] := by
  cases x <;> simp [optStrVal, set_span_attribute, shouldSetAttr, finishReasonsAttrValues]

theorem finishReasonsAttrValues_int (nm : String) (n : Int) :
    finishReasonsAttrValues (set_span_attribute nm (PyVal.int n)) = [] := by
  simp [set_span_attribute, shouldSetAttr, finishReasonsAttrValues]

theorem finishReasonsAttrValues_set_response_attributes (recording : Bool)
    (x y : Option String) (p q : Int) :
    finishReasonsAttrValues (set_response_attributes recording
      (optStrVal x) (optStrVal y) (PyVal.int p) (PyVal.int q)) = [] := by
  unfold set_response_attributes
  split
  · simp [finishReasonsAttrValues_append, finishReasonsAttrValues_optStr, finishReasonsAttrValues_int]
  · rfl

theorem finishReasonsAttrValues_record_error (e : PyError) :
    finishReasonsAttrValues (record_error_effects e) = [] := by
  simp [finishReasonsAttrValues, record_error_effects]

theorem finishReasonsAttrValues_choice_events (bufs : List ChoiceBuffer) :
    finishReasonsAttrValues (bufs.map (fun b =>
        Effect.emit (some (EmittedEvent.choiceEvent b.index b.finish_reason (some b.content_str) none))))
      = [] := by
  induction bufs with
  | nil => rfl
  | cons b rest ih => simp_all [finishReasonsAttrValues, List.filterMap_cons]

theorem finishReasonsAttrValues_fr_attr (xs : List String) :
    finishReasonsAttrValues (set_span_attribute GEN_AI_RESPONSE_FINISH_REASONS (PyVal.strList xs))
      = [xs] := by
  simp [set_span_attribute, shouldSetAttr, finishReasonsAttrValues]

theorem finishReasonsAttrValues_spanEnd : finishReasonsAttrValues [Effect.spanEnd] = [] := rfl

theorem choiceEventReasons_spanEnd : choiceEventReasons [Effect.spanEnd] = [] := rfl

/-- A concrete upstream failure used in the C1 counterexample scenario. -/
def c1err : PyError := { typeName := "ValueError", message := "connection reset" }

/-- C1: the claim states that for any combination of finalization triggers the
span-end operation and the terminal per-choice event sequence occur exactly
once, every later trigger being a no-op.  The code violates this: when
`cleanup` runs with an in-flight exception, `_record_error` raises before
`_span_started` is reset, so a subsequent trigger (here: the scoped exit of a
`with` block observing the same upstream failure that already finalized the
wrapper in `__next__`) repeats the whole finalization — the `gen_ai.choice`
events are emitted twice and `span.end()` runs twice.  The first conjunct
exhibits the cause: after an error-triggered `cleanup` the guard flag is still
set. -/
theorem c1_double_finalization_on_error_trigger :
    (StreamWrapper.cleanup true (StreamWrapper.init 1) (some c1err)).1.span_started = true ∧
    countSpanEnd (runTriggers true (StreamWrapper.init 1) [some c1err, some c1err]).2 = 2 ∧
    countChoiceEvents (runTriggers true (StreamWrapper.init 1) [some c1err, some c1err]).2 = 2 := by
  decide

/-- The wrapper state of the C2 counterexample: one choice whose finish reason
was never set by any chunk (a fresh single-choice wrapper at finalization). -/
def c2w : StreamWrapper := StreamWrapper.init 1

/-- C2 counterexample: finalizing a wrapper whose single choice never received
a finish reason writes `["error"]` to the `finish_reasons` span attribute, but
the emitted `gen_ai.choice` event body carries the raw null finish reason
(`none`), not the literal string `"error"` — refuting the claim that the
substitution also happens in the event body (the source emits
`choice.finish_reason` unsubstituted at patch.py:232). -/
theorem c2_event_body_keeps_null_reason :
    finishReasonsAttrValues (StreamWrapper.cleanup true c2w none).2 = [["error"]] ∧
    choiceEventReasons (StreamWrapper.cleanup true c2w none).2 = [none] ∧
    (none : Option String) ≠ some "error" := by
  decide

/-- C2 (amended): at finalization, a choice whose finish reason was never set
is reported as the literal string `"error"` in the span's ordered
`finish_reasons` attribute list, while the `finish_reason` field of its
emitted `gen_ai.choice` event body carries the raw (null) value unsubstituted.
Stated for an arbitrary started wrapper and any trigger. -/
theorem c2_amended_error_substitution (rid rmodel : Option String) (pt ct : Int)
    (bufs : List ChoiceBuffer) (recording : Bool) (t : Option PyError) :
    finishReasonsAttrValues (StreamWrapper.cleanup recording
        { span_started := true, response_id := rid, response_model := rmodel,
          prompt_tokens := pt, completion_tokens := ct, choices := bufs } t).2
      = [bufs.map (fun b => pyOrStr b.finish_reason "error")] ∧
    choiceEventReasons (StreamWrapper.cleanup recording
        { span_started := true, response_id := rid, response_model := rmodel,
          prompt_tokens := pt, completion_tokens := ct, choices := bufs } t).2
      = bufs.map ChoiceBuffer.finish_reason := by
  unfold StreamWrapper.cleanup
  cases t <;>
    simp [finishReasonsAttrValues_append, choiceEventReasons_append,
      finishReasonsAttrValues_set_response_attributes, choiceEventReasons_set_response_attributes,
      finishReasonsAttrValues_choice_events, choiceEventReasons_choice_events,
      finishReasonsAttrValues_fr_attr, choiceEventReasons_set_span_attribute,
      finishReasonsAttrValues_record_error, choiceEventReasons_record_error,
      finishReasonsAttrValues_spanEnd, choiceEventReasons_spanEnd]

/-- C3: the claim states that an optional request attribute whose value equals
the `NOT_GIVEN` sentinel is not attached.  The code attaches it: the condition
`value is not None and (value != "" or value != NOT_GIVEN)` of
`_set_span_attribute` is true for the sentinel (the disjunction is always
true), so the attribute is set for every non-`None` value, including
`NOT_GIVEN`. -/
theorem c3_sentinel_not_suppressed :
    shouldSetAttr PyVal.notGiven = true ∧
    set_span_attribute GEN_AI_REQUEST_TEMPERATURE PyVal.notGiven
      = [Effect.attr GEN_AI_REQUEST_TEMPERATURE PyVal.notGiven] := by
  exact ⟨rfl, rfl⟩

/-- C4: when the upstream sequence raises a failure (other than exhaustion)
while producing the next chunk, the Stream Tracer yields exactly the chunks
before the failure point (none at or after it), re-raises the identical
failure to the caller, and records the failure on the span: the `error.type`
attribute is set to the failure's kind name and the span status is set to
error with the failure's message. -/
theorem c4_error_recorded_and_reraised (n : Nat) (cs : List Chunk) (e : PyError) :
    (runUpstream true (StreamWrapper.init n) { chunks := cs, err := some e }).yielded = cs ∧
    (runUpstream true (StreamWrapper.init n) { chunks := cs, err := some e }).raised = some e ∧
    Effect.attr ERROR_TYPE (PyVal.str e.typeName)
      ∈ (runUpstream true (StreamWrapper.init n) { chunks := cs, err := some e }).effects ∧
    Effect.statusError e.message
      ∈ (runUpstream true (StreamWrapper.init n) { chunks := cs, err := some e }).effects := by
  have hs : (List.foldl process_chunk (StreamWrapper.init n) cs).span_started = true := by
    rw [foldl_span_started]; rfl
  have hm := cleanup_err_mem true (List.foldl process_chunk (StreamWrapper.init n) cs) e hs
  refine ⟨runStream_yielded true cs (some e) (StreamWrapper.init n),
    runStream_raised true cs (some e) (StreamWrapper.init n), ?_, ?_⟩
  · show _ ∈ (runStream true (StreamWrapper.init n) cs (some e)).effects
    rw [runStream_effects]
    exact hm.1
  · show _ ∈ (runStream true (StreamWrapper.init n) cs (some e)).effects
    rw [runStream_effects]
    exact hm.2.1

/-- C5: for every upstream sequence of well-formed chunks, the sequence of
chunks observed by a caller iterating the Stream Tracer is identical, in order
and value, to the sequence produced by the upstream (pass-through
transparency).  Well-formedness (all per-choice indices in range) delimits the
inputs on which the source itself does not raise while accumulating. -/
theorem c5_passthrough_transparency (n : Nat) (up : Upstream)
    (h : ∀ c ∈ up.chunks, wellFormedChunk n c = true) :
    (runUpstream true (StreamWrapper.init n) up).yielded = up.chunks :=
  runStream_yielded true up.chunks up.err (StreamWrapper.init n)

/-- A concrete well-formed chunk for the C5 witness. -/
def c5chunk : Chunk :=
  { id := some "r1", model := some "gpt-test", usage := none
  , choices := some [some { index := 0, finish_reason := some "stop"
                          , delta := some { content := some "A" } }] }

/-- C5 witness: the pass-through theorem applied to a concrete one-chunk
well-formed upstream. -/
theorem c5_witness :
    (∀ c ∈ ({ chunks := [c5chunk], err := none } : Upstream).chunks, wellFormedChunk 1 c = true) ∧
    (runUpstream true (StreamWrapper.init 1) { chunks := [c5chunk], err := none }).yielded
      = [c5chunk] :=
  ⟨by decide, c5_passthrough_transparency 1 { chunks := [c5chunk], err := none } (by decide)⟩

/-- A chunk carrying only an optional id (used in the C6 concrete scenario). -/
def idOnlyChunk (id : Option String) : Chunk :=
  { id := id, model := none, usage := none, choices := none }

/-- C6: `response_id` and `response_model` are first-write-wins: after feeding
any chunk list to a fresh wrapper, each equals the first non-null id (resp.
model) carried by a chunk, never overwritten by later chunks; in particular
feeding ids `[null, "abc", "xyz"]` yields `response_id = "abc"`. -/
theorem c6_first_write_wins_identity (n : Nat) (cs : List Chunk) :
    (List.foldl process_chunk (StreamWrapper.init n) cs).response_id = cs.findSome? Chunk.id ∧
    (List.foldl process_chunk (StreamWrapper.init n) cs).response_model = cs.findSome? Chunk.model ∧
    (List.foldl process_chunk (StreamWrapper.init 1)
        [idOnlyChunk none, idOnlyChunk (some "abc"), idOnlyChunk (some "xyz")]).response_id
      = some "abc" := by
  refine ⟨?_, ?_, by decide⟩
  · rw [foldl_response_id]
    simp [StreamWrapper.init]
  · rw [foldl_response_model]
    simp [StreamWrapper.init]

/-- C7: `prompt_tokens` and `completion_tokens` are last-write-wins: a chunk
that carries usage data overwrites (does not sum into) both counters with that
chunk's values; in particular feeding usage `(10, 1)` then `(10, 2)` to a fresh
wrapper yields `completion_tokens = 2`. -/
theorem c7_last_write_wins_usage (w : StreamWrapper) (id model : Option String)
    (u : Usage) (chs : Option (List (Option ChunkChoice))) :
    (process_chunk w { id := id, model := model, usage := some u, choices := chs }).prompt_tokens
      = u.prompt_tokens ∧
    (process_chunk w { id := id, model := model, usage := some u, choices := chs }).completion_tokens
      = u.completion_tokens ∧
    (process_chunk (process_chunk (StreamWrapper.init 1)
        { id := none, model := none
        , usage := some { prompt_tokens := 10, completion_tokens := 1 }, choices := none })
        { id := none, model := none
        , usage := some { prompt_tokens := 10, completion_tokens := 2 }, choices := none }).completion_tokens
      = 2 := by
  refine ⟨?_, ?_, by decide⟩
  · rw [process_chunk_prompt_tokens]
  · rw [process_chunk_completion_tokens]

/-- C8: accumulated text grows by concatenating each chunk's text delta in
arrival order and is not otherwise modified by `append`: a delta with content
`s` appends `s`, a missing delta or null content leaves the text unchanged;
in particular deltas `"Hel"` then `"lo"` yield `"Hello"`. -/
theorem c8_text_accumulation (b : ChoiceBuffer) (idx : Nat) (fr : Option String) (s : String) :
    (ChoiceBuffer.append b { index := idx, finish_reason := fr
                           , delta := some { content := some s } }).content_str
      = b.content_str ++ s ∧
    (ChoiceBuffer.append b { index := idx, finish_reason := fr
                           , delta := some { content := none } }).content_str
      = b.content_str ∧
    (ChoiceBuffer.append b { index := idx, finish_reason := fr, delta := none }).content_str
      = b.content_str ∧
    (ChoiceBuffer.append (ChoiceBuffer.append (ChoiceBuffer.init 0)
        { index := 0, finish_reason := none, delta := some { content := some "Hel" } })
        { index := 0, finish_reason := none, delta := some { content := some "lo" } }).content_str
      = "Hello" := by
  refine ⟨?_, ?_, ?_, by decide⟩ <;> rw [append_content_str]

/-- C9: when the span is not in a recording state, `traced_method` sets no
span attributes and emits no events, yet the wrapped call's result is returned
to the caller unwrapped — no `StreamWrapper` is constructed even when the
call requested streaming. -/
theorem c9_not_recording_returns_unwrapped (kw : Kwargs) (result : CallResult) :
    traced_method false kw result = (Returned.raw result, []) := rfl

/-- C10: a stream that finalizes without any chunk having carried usage data
attaches the input-token and output-token usage attributes with the integer
value 0: both counters start at 0, are preserved by every usage-free chunk,
and the skip-if-null rule never suppresses the integer 0. -/
theorem c10_zero_usage_attached (n : Nat) (cs : List Chunk)
    (h : ∀ c ∈ cs, c.usage = none) :
    Effect.attr GEN_AI_USAGE_INPUT_TOKENS (PyVal.int 0)
      ∈ (StreamWrapper.cleanup true (List.foldl process_chunk (StreamWrapper.init n) cs) none).2 ∧
    Effect.attr GEN_AI_USAGE_OUTPUT_TOKENS (PyVal.int 0)
      ∈ (StreamWrapper.cleanup true (List.foldl process_chunk (StreamWrapper.init n) cs) none).2 := by
  have hs : (List.foldl process_chunk (StreamWrapper.init n) cs).span_started = true := by
    rw [foldl_span_started]; rfl
  have hp : (List.foldl process_chunk (StreamWrapper.init n) cs).prompt_tokens = 0 := by
    rw [foldl_prompt_tokens_of_no_usage cs (StreamWrapper.init n) h]; rfl
  have hc : (List.foldl process_chunk (StreamWrapper.init n) cs).completion_tokens = 0 := by
    rw [foldl_completion_tokens_of_no_usage cs (StreamWrapper.init n) h]; rfl
  unfold StreamWrapper.cleanup
  rw [hs]
  simp only [reduceIte, hp, hc]
  constructor <;>
    simp [set_response_attributes, set_span_attribute, shouldSetAttr,
      GEN_AI_RESPONSE_MODEL, GEN_AI_RESPONSE_ID, GEN_AI_USAGE_INPUT_TOKENS,
      GEN_AI_USAGE_OUTPUT_TOKENS]

/-- A concrete usage-free chunk for the C10 witness. -/
def c10chunk : Chunk :=
  { id := some "r9", model := some "gpt-test", usage := none, choices := none }

/-- C10 witness: the zero-usage theorem applied to a concrete one-chunk
usage-free stream. -/
theorem c10_witness :
    (∀ c ∈ [c10chunk], c.usage = none) ∧
    Effect.attr GEN_AI_USAGE_INPUT_TOKENS (PyVal.int 0)
      ∈ (StreamWrapper.cleanup true (List.foldl process_chunk (StreamWrapper.init 1) [c10chunk]) none).2 ∧
    Effect.attr GEN_AI_USAGE_OUTPUT_TOKENS (PyVal.int 0)
      ∈ (StreamWrapper.cleanup true (List.foldl process_chunk (StreamWrapper.init 1) [c10chunk]) none).2 :=
  ⟨by decide, (c10_zero_usage_attached 1 [c10chunk] (by decide)).1,
    (c10_zero_usage_attached 1 [c10chunk] (by decide)).2⟩
